import Mathlib

/-!
Shallow embedding of the signal-scoring and risk-management engine of the
trading-assistant repository (`src/risk/manager.py` and
`src/analysis/scoring_system.py`), together with theorems settling the
frozen claims about it.

Modelling conventions:
* Python floats are modelled as `ℚ` (exact arithmetic; every literal in the
  source is a decimal fraction).
* Python operations that can raise are modelled in `Except PyErr`:
  `KeyError` for a missing dict key, `ZeroDivisionError` for `x / 0.0` on
  Python floats, `IndexError` for `xs[-1]` / `xs[0]` on an empty sequence.
* numpy reductions over an *empty* array (`np.mean([])`, `np.std([])`)
  return `nan` with a warning rather than raising; the claims below are
  only ever instantiated where those windows are non-empty, and the junk
  value `0` that `ℚ`-division-by-zero gives in that case is never
  inspected by any theorem.
* `np.std` is a square root and hence irrational; the embedding carries
  its square (the population variance, `npStdSq`).  The only decisions the
  source takes on a standard deviation are (a) the degenerate comparison
  `v > np.mean(v) + np.std(v)` of a scalar against itself, whose truth
  value (`v > v + 0`, i.e. `False`) does not depend on which monotone
  image of the value is carried, (b) `std == 0`, which holds iff the
  variance is `0`, and (c) the Pearson-correlation threshold
  `|corr| > c`, which for non-degenerate variances is equivalent to the
  rational comparison `cov² > c² · var·var` used here.
-/

/-- Runtime errors of the Python fragments the engine can actually raise. -/
inductive PyErr where
  | keyError (key : String)
  | zeroDivisionError
  | indexError
  | valueError
deriving DecidableEq, Repr

/-- Division of Python floats: `a / b` raises `ZeroDivisionError` when `b == 0`. -/
def pydiv (a b : ℚ) : Except PyErr ℚ :=
  if b = 0 then .error .zeroDivisionError else .ok (a / b)

/-- `xs[-1]` on a Python/numpy sequence: `IndexError` when empty. -/
def npLast (xs : List ℚ) : Except PyErr ℚ :=
  match xs.getLast? with
  | some v => .ok v
  | none => .error .indexError

/-- `np.mean`: on an empty array numpy yields `nan` (no exception); the `ℚ`
junk value is `0` here and is never inspected on that path by any claim. -/
def listMean (xs : List ℚ) : ℚ := xs.sum / xs.length

/-- The square of `np.std` (population variance).  See the header comment. -/
def npStdSq (xs : List ℚ) : ℚ := listMean (xs.map (fun x => (x - listMean xs) ^ 2))

/-- Population covariance of two index-aligned series (the off-diagonal
entry of `np.cov`/`np.corrcoef` up to the shared normalisation). -/
def listCov (a b : List ℚ) : ℚ :=
  listMean (List.zipWith (fun x y => (x - listMean a) * (y - listMean b)) a b)

/-- `np.diff`: consecutive differences. -/
def npDiff : List ℚ → List ℚ
  | x :: y :: rest => (y - x) :: npDiff (y :: rest)
  | _ => []

/-- Python slice `xs[-n:]` (whole list when shorter than `n`). -/
def lastN (n : Nat) (xs : List ℚ) : List ℚ := xs.drop (xs.length - n)

/-- Dict-key access: `d[k]` raises `KeyError k` when the key is absent. -/
def getKey {α : Type} (o : Option α) (k : String) : Except PyErr α :=
  match o with
  | some v => .ok v
  | none => .error (.keyError k)

/-- `RiskManager.__init__` configuration (`src/risk/manager.py`, lines 8-13). -/
structure RiskManager where
  risk_per_trade : ℚ := 1/50
  max_portfolio_risk : ℚ := 3/50
  max_correlation : ℚ := 7/10
  stop_loss_atr_multiplier : ℚ := 2
deriving DecidableEq, Repr

/-- Result dict of `RiskManager.calculate_position_size`. -/
structure PositionSizeResult where
  position_size : ℚ
  position_value : ℚ
  risk_amount : ℚ
  risk_percent : ℚ
deriving DecidableEq, Repr

/-- `RiskManager.calculate_position_size` (manager.py, lines 15-30).
`position_size = max_risk_amount / price_risk` raises `ZeroDivisionError`
when `entry_price == stop_loss_price`. -/
def calculate_position_size (rm : RiskManager)
    (account_balance entry_price stop_loss_price : ℚ) :
    Except PyErr PositionSizeResult := do
  let max_risk_amount := account_balance * rm.risk_per_trade
  let price_risk := |entry_price - stop_loss_price|
  let position_size ← pydiv max_risk_amount price_risk
  let position_value := position_size * entry_price
  .ok { position_size := position_size, position_value := position_value,
        risk_amount := max_risk_amount, risk_percent := rm.risk_per_trade * 100 }

/-- Result dict of `RiskManager.calculate_safe_leverage`. -/
structure LeverageResult where
  max_safe_leverage : ℚ
  current_leverage : ℚ
  is_safe : Bool
deriving DecidableEq, Repr

/-- `RiskManager.calculate_safe_leverage` (manager.py, lines 48-60).
`1.0 / volatility` raises `ZeroDivisionError` when `volatility == 0`;
likewise `position_value / account_balance` when the balance is `0`. -/
def calculate_safe_leverage (_rm : RiskManager)
    (account_balance position_value volatility : ℚ) :
    Except PyErr LeverageResult := do
  let inv_vol ← pydiv 1 volatility
  let max_safe_leverage := min 3 inv_vol
  let current_leverage ← pydiv position_value account_balance
  .ok { max_safe_leverage := max_safe_leverage, current_leverage := current_leverage,
        is_safe := decide (current_leverage ≤ max_safe_leverage) }

/-- Result dict of `RiskManager.detect_market_regime`.  `volatilitySq`
carries the square of the `volatility` entry (see the header comment);
`volume_ratio` is `nan`/`inf` in numpy when the mean volume is `0` (no
exception) — the `ℚ` junk value `0` on that path is never inspected. -/
structure RegimeResult where
  regime : String
  risk_multiplier : ℚ
  volatilitySq : ℚ
  volume_ratio : ℚ
deriving DecidableEq, Repr

/-- `np.mean` of a scalar is the scalar itself. -/
def scalarMean (x : ℚ) : ℚ := x

/-- `np.std` of a scalar is `0`. -/
def scalarStd (_ : ℚ) : ℚ := 0

/-- `RiskManager.detect_market_regime` (manager.py, lines 62-91).
`volatility = np.std(price_data)` is a single scalar, and
`is_high_volatility = volatility > np.mean(volatility) + np.std(volatility)`
compares it against itself plus zero.  The comparison form `v > v + 0` is
preserved literally (on the squared representative, which cannot change
its truth value).  `volume_data[-1]` raises `IndexError` on an empty
series. -/
def detect_market_regime (price_data volume_data : List ℚ) :
    Except PyErr RegimeResult := do
  let volatilitySq := npStdSq price_data
  let avg_volume := listMean volume_data
  let recent_volume ← npLast volume_data
  let is_high_volatility := decide (volatilitySq > scalarMean volatilitySq + scalarStd volatilitySq)
  let is_high_volume := decide (recent_volume > avg_volume * (3/2))
  let (regime, risk_multiplier) :=
    if is_high_volatility && is_high_volume then ("high_risk", (1/2 : ℚ))
    else if is_high_volatility then ("volatile", 7/10)
    else if is_high_volume then ("high_volume", 4/5)
    else ("normal", 1)
  .ok { regime := regime, risk_multiplier := risk_multiplier,
        volatilitySq := volatilitySq, volume_ratio := recent_volume / avg_volume }

/-- Result dict of `RiskManager.generate_portfolio_heat_map`. -/
structure HeatMap where
  high_risk : List String
  medium_risk : List String
  low_risk : List String
deriving DecidableEq, Repr

/-- The `for symbol, pos in positions.items()` loop of
`generate_portfolio_heat_map`: each `pos['value'] / total_exposure`
raises `ZeroDivisionError` when the total exposure is `0`. -/
def heatMapLoop (total : ℚ) : List (String × ℚ) → HeatMap → Except PyErr HeatMap
  | [], acc => .ok acc
  | (sym, v) :: rest, acc => do
    let risk_ratio ← pydiv v total
    let acc' :=
      if risk_ratio > 1/5 then { acc with high_risk := acc.high_risk ++ [sym] }
      else if risk_ratio > 1/10 then { acc with medium_risk := acc.medium_risk ++ [sym] }
      else { acc with low_risk := acc.low_risk ++ [sym] }
    heatMapLoop total rest acc'

/-- `RiskManager.generate_portfolio_heat_map` (manager.py, lines 93-112).
Positions are the insertion-ordered dict `symbol -> {'value': v}`.  Note
that with an *empty* dict the loop body never runs, so the function
returns the three empty buckets normally even though the total exposure
is `0`. -/
def generate_portfolio_heat_map (positions : List (String × ℚ)) :
    Except PyErr HeatMap := do
  let total_exposure := (positions.map (fun p => p.2)).sum
  heatMapLoop total_exposure positions { high_risk := [], medium_risk := [], low_risk := [] }

/-- The `sentiment_data` dict as consumed by `adjust_risk_by_sentiment`:
each field holds the `score` of the corresponding nested dict when that
key is present.  `score` is the extra top-level key that
`SignalScorer.generate_signal` supplies instead of the three expected
ones. -/
structure SentimentData where
  news_sentiment : Option ℚ := none
  social_sentiment : Option ℚ := none
  technical_sentiment : Option ℚ := none
  score : Option ℚ := none
deriving DecidableEq, Repr

/-- Result dict of `RiskManager.adjust_risk_by_sentiment`. -/
structure SentimentAdjust where
  original_risk : ℚ
  adjusted_risk : ℚ
  sentiment_score : ℚ
  risk_multiplier : ℚ
deriving DecidableEq, Repr

/-- `RiskManager.adjust_risk_by_sentiment` (manager.py, lines 114-144).
`sentiment_data['news_sentiment']` raises `KeyError` when absent (lines
124-128), and similarly for the other two sources. -/
def adjust_risk_by_sentiment (base_risk : ℚ) (s : SentimentData) :
    Except PyErr SentimentAdjust := do
  let news ← getKey s.news_sentiment "news_sentiment"
  let social ← getKey s.social_sentiment "social_sentiment"
  let technical ← getKey s.technical_sentiment "technical_sentiment"
  let weighted_score := news * (3/10) + social * (3/10) + technical * (2/5)
  let risk_multiplier : ℚ :=
    if weighted_score > 4/5 then 6/5
    else if weighted_score < 1/5 then 3/5
    else 1
  .ok { original_risk := base_risk, adjusted_risk := base_risk * risk_multiplier,
        sentiment_score := weighted_score, risk_multiplier := risk_multiplier }

/-- The unordered pairs visited by the double loop
`for i in range(n): for j in range(i+1, n)`. -/
def allPairs {α : Type} : List α → List (α × α)
  | [] => []
  | x :: xs => xs.map (fun y => (x, y)) ++ allPairs xs

/-- The flagging test `abs(corr) > self.max_correlation` where `corr` is
the Pearson correlation `cov / (std·std)`, for two series of *equal
length* (the mismatched case raises before this test; see `corrLoop`).
When either series has zero variance, `np.corrcoef` yields `nan` and
`abs(nan) > c` is `False` in Python, so such a pair is never flagged.
Otherwise: for a negative threshold `c`, `|corr| > c` holds always
(`|corr| ≥ 0 > c`); for `c ≥ 0` both sides of `|corr| > c` are
non-negative, so squaring preserves the truth value and the test is the
rational comparison `cov² > c² · var·var`. -/
def isHighCorrelation (max_correlation : ℚ) (a b : List ℚ) : Bool :=
  if npStdSq a = 0 ∨ npStdSq b = 0 then false
  else if max_correlation < 0 then true
  else decide ((listCov a b) ^ 2 > max_correlation ^ 2 * (npStdSq a * npStdSq b))

/-- Result dict of `RiskManager.calculate_correlation_risk` (the
`correlations` map of irrational Pearson values is carried only through
the flagged-pair list the aggregator consumes). -/
structure CorrelationRisk where
  high_correlation_pairs : List (String × String)
  max_correlation : ℚ
deriving DecidableEq, Repr

/-- The `for i / for j in range(i+1, n)` double loop of
`calculate_correlation_risk` over the unordered pairs:
`np.corrcoef(a, b)` raises a `ValueError` when the two return series
have different lengths (the rows cannot be stacked), so each pair is
length-checked before its flagging test; flagged pairs are collected in
loop order. -/
def corrLoop (c : ℚ) : List ((String × List ℚ) × (String × List ℚ)) →
    Except PyErr (List (String × String))
  | [] => .ok []
  | pr :: rest =>
    if pr.1.2.length = pr.2.2.length then do
      let flagged ← corrLoop c rest
      if isHighCorrelation c pr.1.2 pr.2.2 then .ok ((pr.1.1, pr.2.1) :: flagged)
      else .ok flagged
    else .error .valueError

/-- `RiskManager.calculate_correlation_risk` (manager.py, lines 302-321). -/
def calculate_correlation_risk (rm : RiskManager)
    (asset_returns : List (String × List ℚ)) : Except PyErr CorrelationRisk := do
  let flagged ← corrLoop rm.max_correlation (allPairs asset_returns)
  .ok { high_correlation_pairs := flagged, max_correlation := rm.max_correlation }

/-- The `market_data` dict: the `prices` and `volumes` keys every caller
in the source supplies. -/
structure MarketData where
  prices : List ℚ
  volumes : List ℚ
deriving DecidableEq, Repr

/-- The `portfolio_data` dict.  `calculate_risk_score` accesses the keys
`positions` and `returns`; `SignalScorer.generate_signal` supplies only
`positions` (an empty dict), so `returns` is `none` there. -/
structure PortfolioData where
  positions : Option (List (String × ℚ)) := none
  returns : Option (List (String × List ℚ)) := none
deriving DecidableEq, Repr

/-- Result dict of `RiskManager.calculate_risk_score`; the four fields
after `level` are the `components` sub-dict. -/
structure RiskScore where
  score : ℚ
  level : String
  market_regime_component : ℚ
  sentiment_component : ℚ
  concentration_component : ℚ
  correlation_component : ℚ
deriving DecidableEq, Repr

/-- `RiskManager.calculate_risk_score` (manager.py, lines 146-196):
regime lookup (default 50), sentiment score ×100, concentration and
correlation penalties, fixed weights 0.3/0.2/0.25/0.25, level
thresholds 40/70. -/
def calculate_risk_score (rm : RiskManager) (market_data : MarketData)
    (sentiment_data : SentimentData) (portfolio_data : PortfolioData) :
    Except PyErr RiskScore := do
  let market_regime ← detect_market_regime market_data.prices market_data.volumes
  let market_regime_score : ℚ :=
    if market_regime.regime = "high_risk" then 20
    else if market_regime.regime = "volatile" then 40
    else if market_regime.regime = "high_volume" then 60
    else if market_regime.regime = "normal" then 80
    else 50
  let sentiment_adjust ← adjust_risk_by_sentiment 1 sentiment_data
  let sentiment_score := sentiment_adjust.sentiment_score * 100
  let positions ← getKey portfolio_data.positions "positions"
  let heat_map ← generate_portfolio_heat_map positions
  let concentration_risk := (heat_map.high_risk.length : ℚ) * 20
  let concentration_score := max 0 (100 - concentration_risk)
  let returns ← getKey portfolio_data.returns "returns"
  let correlation_data ← calculate_correlation_risk rm returns
  let correlation_risk := (correlation_data.high_correlation_pairs.length : ℚ) * 15
  let correlation_score := max 0 (100 - correlation_risk)
  let final_score := market_regime_score * (3/10) + sentiment_score * (1/5)
                     + concentration_score * (1/4) + correlation_score * (1/4)
  .ok { score := final_score,
        level := if final_score < 40 then "high"
                 else if final_score < 70 then "medium" else "low",
        market_regime_component := market_regime_score,
        sentiment_component := sentiment_score,
        concentration_component := concentration_score,
        correlation_component := correlation_score }

/-- One period of `historical_data` in `backtest_risk_strategy`. -/
structure PeriodData where
  market : MarketData
  sentiment : SentimentData
  portfolio : PortfolioData
  price : ℚ
  next_price : ℚ
deriving DecidableEq, Repr

/-- One entry of `results['trades']`.  The source stores the whole risk
dict under `risk_score` and the already-sized `trade_result` under
`pnl`. -/
structure TradeRecord where
  date : String
  risk_score : RiskScore
  position_size : ℚ
  pnl : ℚ
  capital : ℚ
deriving DecidableEq, Repr

/-- The per-period loop of `backtest_risk_strategy` (manager.py, lines
211-249): risk score, nominal size against a fixed 5% stop, scaling by
`risk_score/100`, pnl accrual, capital threading. -/
def backtestLoop (rm : RiskManager) :
    List (String × PeriodData) → ℚ → List TradeRecord →
    Except PyErr (ℚ × List TradeRecord)
  | [], capital, trades => .ok (capital, trades)
  | (date, data) :: rest, capital, trades => do
    let risk_score ← calculate_risk_score rm data.market data.sentiment data.portfolio
    let position_size ← calculate_position_size rm capital data.price (data.price * (19/20))
    let adjusted_size := position_size.position_size * (risk_score.score / 100)
    let pnl := data.next_price - data.price
    let trade_result := adjusted_size * pnl
    let capital' := capital + trade_result
    backtestLoop rm rest capital'
      (trades ++ [{ date := date, risk_score := risk_score,
                    position_size := adjusted_size, pnl := trade_result,
                    capital := capital' }])

/-- The inner scan of `_calculate_max_drawdown`: running peak and the
division `(peak - capital) / peak` (a Python-float division, so a zero
peak raises). -/
def drawdownLoop (peak max_dd : ℚ) : List ℚ → Except PyErr ℚ
  | [] => .ok max_dd
  | c :: rest => do
    let peak' := if c > peak then c else peak
    let dd ← pydiv (peak' - c) peak'
    drawdownLoop peak' (if dd > max_dd then dd else max_dd) rest

/-- `RiskManager._calculate_max_drawdown` (manager.py, lines 261-274).
`capitals[0]` raises `IndexError` when the trade list is empty. -/
def calculate_max_drawdown (trades : List TradeRecord) : Except PyErr ℚ :=
  match trades.map (fun t => t.capital) with
  | [] => .error .indexError
  | c :: cs => do
    let dd ← drawdownLoop c 0 (c :: cs)
    .ok (dd * 100)

/-- The list comprehension building the period returns of
`_calculate_sharpe_ratio`: `(t.capital - prev.capital) / prev.capital`
for consecutive trade records. -/
def consecutiveReturns : List ℚ → Except PyErr (List ℚ)
  | a :: b :: rest => do
    let r ← pydiv (b - a) a
    let rs ← consecutiveReturns (b :: rest)
    .ok (r :: rs)
  | _ => .ok []

/-- The value of `_calculate_sharpe_ratio`.  The non-degenerate branch of
the source returns `(avg/std)·√252`, an irrational number; it is carried
symbolically as `annualized avg stdSq` (denoting `avg/√stdSq · √252`
with `stdSq ≠ 0`), while `zero` is the two explicit `return 0`
fallbacks (no returns, or zero standard deviation).  No claim inspects
the non-degenerate value beyond the branch taken. -/
inductive SharpeVal where
  | zero
  | annualized (avg stdSq : ℚ)
deriving DecidableEq, Repr

/-- `RiskManager._calculate_sharpe_ratio` (manager.py, lines 276-290). -/
def calculate_sharpe_ratio (trades : List TradeRecord) : Except PyErr SharpeVal := do
  let returns ← consecutiveReturns (trades.map (fun t => t.capital))
  if returns = [] then .ok .zero
  else
    let avg_return := listMean returns
    let stdSq := npStdSq returns
    if stdSq = 0 then .ok .zero
    else .ok (.annualized avg_return stdSq)

/-- `RiskManager._calculate_risk_adjusted_return` (manager.py, lines
292-300).  `trades[-1]` on an empty list raises `IndexError`; the total
return divides by `trades[0].capital`; a zero max drawdown is the
explicit `return 0` fallback. -/
def calculate_risk_adjusted_return (trades : List TradeRecord) : Except PyErr ℚ :=
  match trades with
  | [] => .error .indexError
  | t0 :: rest => do
    let last_capital := ((t0 :: rest).getLast (List.cons_ne_nil t0 rest)).capital
    let total_return ← pydiv (last_capital - t0.capital) t0.capital
    let max_dd ← calculate_max_drawdown (t0 :: rest)
    if max_dd = 0 then .ok 0
    else pydiv total_return (max_dd / 100)

/-- The `metrics` dict of `backtest_risk_strategy`. -/
structure BacktestMetrics where
  final_capital : ℚ
  total_return : ℚ
  max_drawdown : ℚ
  sharpe_ratio : SharpeVal
  risk_adjusted_return : ℚ
deriving DecidableEq, Repr

/-- The `results` dict of `backtest_risk_strategy` (the
`risk_adjustments` list duplicates per-trade data already present in
`trades` and is carried there). -/
structure BacktestResult where
  trades : List TradeRecord
  metrics : BacktestMetrics
deriving DecidableEq, Repr

/-- `RiskManager.backtest_risk_strategy` (manager.py, lines 198-259).
`historical_data` is the insertion-ordered dict `date -> period`;
`initial_capital` is `strategy_params.get('initial_capital', 10000)`.
The metrics are evaluated in source order (`final_capital`,
`total_return`, `max_drawdown`, `sharpe_ratio`,
`risk_adjusted_return`), which determines which error surfaces first on
degenerate runs. -/
def backtest_risk_strategy (rm : RiskManager)
    (historical_data : List (String × PeriodData))
    (initial_capital? : Option ℚ) : Except PyErr BacktestResult := do
  let initial_capital := initial_capital?.getD 10000
  let (capital, trades) ← backtestLoop rm historical_data initial_capital []
  let total_return ← pydiv (capital - initial_capital) initial_capital
  let max_drawdown ← calculate_max_drawdown trades
  let sharpe_ratio ← calculate_sharpe_ratio trades
  let risk_adjusted_return ← calculate_risk_adjusted_return trades
  .ok { trades := trades,
        metrics := { final_capital := capital, total_return := total_return * 100,
                     max_drawdown := max_drawdown, sharpe_ratio := sharpe_ratio,
                     risk_adjusted_return := risk_adjusted_return } }

/-- `SignalScorer.__init__` configuration (`src/analysis/scoring_system.py`,
lines 15-26). -/
structure SignalScorer where
  confidence_threshold : ℚ := 7/10
  min_risk_reward : ℚ := 2
  max_portfolio_risk : ℚ := 1/50
deriving DecidableEq, Repr

/-- The `RiskManager` the scorer constructs for itself (scoring_system.py,
lines 21-24): `risk_per_trade` is the scorer's `max_portfolio_risk`,
`max_portfolio_risk` three times that, the rest defaults. -/
def SignalScorer.riskManager (s : SignalScorer) : RiskManager :=
  { risk_per_trade := s.max_portfolio_risk,
    max_portfolio_risk := s.max_portfolio_risk * 3,
    max_correlation := 7/10, stop_loss_atr_multiplier := 2 }

/-- `SignalScorer._calculate_rsi` (scoring_system.py, lines 98-111):
deltas over the whole series, clipped gains/losses, means over the last
`period` entries, the explicit `avg_loss == 0 -> 100` fallback, else
`100 - 100/(1 + avg_gain/avg_loss)`.  Faithful whenever the series has
at least `period + 1` prices (shorter series make numpy average empty
windows into `nan`, which never raises but propagates as a junk value). -/
def calculate_rsi (prices : List ℚ) (period : Nat := 14) : ℚ :=
  let deltas := npDiff prices
  let gain := deltas.map (fun d => if d > 0 then d else 0)
  let loss := deltas.map (fun d => if d < 0 then -d else 0)
  let avg_gain := listMean (lastN period gain)
  let avg_loss := listMean (lastN period loss)
  if avg_loss = 0 then 100
  else 100 - 100 / (1 + avg_gain / avg_loss)

/-- `SignalScorer._calculate_trend_score` (scoring_system.py, lines
113-123).  `prices[-1]` raises `IndexError` on an empty series. -/
def calculate_trend_score (prices : List ℚ) : Except PyErr ℚ := do
  let sma_20 := listMean (lastN 20 prices)
  let sma_50 := listMean (lastN 50 prices)
  let current_price ← npLast prices
  .ok (if current_price > sma_20 ∧ sma_20 > sma_50 then 1
       else if current_price < sma_20 ∧ sma_20 < sma_50 then 0
       else 1/2)

/-- `SignalScorer._calculate_technical_score` (scoring_system.py, lines
78-96): RSI bucket, volume burst against the 20-period average, trend
score, weighted 0.3/0.3/0.4. -/
def calculate_technical_score (price_data volume_data : List ℚ) :
    Except PyErr ℚ := do
  let rsi := calculate_rsi price_data
  let rsi_score : ℚ := if rsi < 30 then 1 else if rsi > 70 then 0 else 1/2
  let vol_avg := listMean (lastN 20 volume_data)
  let vol_current ← npLast volume_data
  let volume_score : ℚ := if vol_current > vol_avg * (3/2) then 1 else 1/2
  let trend_score ← calculate_trend_score price_data
  .ok (rsi_score * (3/10) + volume_score * (3/10) + trend_score * (2/5))

/-- The dict `_combine_signals` returns (scoring_system.py, lines 140-147
and 174-181).  On the low-confidence path `target_price` and
`stop_loss` are Python `None`, hence the `Option`. -/
structure CombinedSignal where
  action : String
  confidence : ℚ
  target_price : Option ℚ
  stop_loss : Option ℚ
  risk_reward : ℚ
  position_size : ℚ
deriving DecidableEq, Repr

/-- `SignalScorer._calculate_position_size` (scoring_system.py, lines
183-192): a hardcoded notional of `100` scaled by
`risk_per_trade · riskScore/100`, divided by the price risk (raising on
a zero denominator). -/
def scorer_position_size (s : SignalScorer) (price stop_loss risk_score : ℚ) :
    Except PyErr ℚ := do
  let risk_amount := 100 * (s.riskManager.risk_per_trade * (risk_score / 100))
  let price_risk := |price - stop_loss|
  pydiv risk_amount price_risk

/-- `SignalScorer._combine_signals` (scoring_system.py, lines 125-181).
`price_change = (predicted - price) / price` is computed before the
confidence gate, so a zero price raises `ZeroDivisionError` even on the
WAIT path.  Note the action gate compares `final_score` against the
literal `0.7`, not the configured threshold. -/
def combine_signals (s : SignalScorer)
    (price predicted_price confidence volatility technical_score risk_score : ℚ) :
    Except PyErr CombinedSignal := do
  let price_change ← pydiv (predicted_price - price) price
  if confidence < s.confidence_threshold then
    .ok { action := "WAIT", confidence := confidence, target_price := none,
          stop_loss := none, risk_reward := 0, position_size := 0 }
  else
    let stop_loss := if price_change > 0 then price * (1 - volatility)
                     else price * (1 + volatility)
    let risk := |price - stop_loss|
    let target := if price_change > 0 then price + risk * s.min_risk_reward
                  else price - risk * s.min_risk_reward
    let risk_reward ← pydiv (|target - price|) (|stop_loss - price|)
    let final_score := confidence * (3/10) + technical_score * (3/10)
                       + (risk_score / 100) * (2/5)
    let action := if price_change > volatility ∧ final_score > 7/10 then "BUY"
                  else if price_change < -volatility ∧ final_score > 7/10 then "SELL"
                  else "WAIT"
    let position_size ← scorer_position_size s price stop_loss risk_score
    .ok { action := action, confidence := final_score, target_price := some target,
          stop_loss := some stop_loss, risk_reward := risk_reward,
          position_size := position_size }

/-- The `analysis` sub-dict of the signal `generate_signal` returns. -/
structure SignalAnalysis where
  transformer_confidence : ℚ
  technical_score : ℚ
  risk_score : ℚ
  volatility : ℚ
deriving DecidableEq, Repr

/-- The `TradeSignal` dict `generate_signal` returns. -/
structure TradeSignal where
  symbol : String
  signal : String
  confidence : ℚ
  target_price : Option ℚ
  stop_loss : Option ℚ
  risk_reward : ℚ
  position_size : ℚ
  analysis : SignalAnalysis
deriving DecidableEq, Repr

/-- `SignalScorer.generate_signal` (scoring_system.py, lines 28-76).  The
transformer is an external collaborator (spec §6): its three output
sequences are taken as parameters.  The source then computes the
technical score, calls `calculate_risk_score` with
`sentiment_data = {'score': technical_score}` (none of the three
`*_sentiment` keys) and `portfolio_data = {'positions': {}}` (no
`returns` key), and finally combines the last elements of the series. -/
def generate_signal (s : SignalScorer) (symbol : String)
    (price_data volume_data : List ℚ)
    (predicted_prices confidence_scores volatility_estimates : List ℚ) :
    Except PyErr TradeSignal := do
  let technical_score ← calculate_technical_score price_data volume_data
  let risk_assessment ← calculate_risk_score s.riskManager
    { prices := price_data, volumes := volume_data }
    { news_sentiment := none, social_sentiment := none,
      technical_sentiment := none, score := some technical_score }
    { positions := some [], returns := none }
  let price ← npLast price_data
  let predicted_price ← npLast predicted_prices
  let confidence ← npLast confidence_scores
  let volatility ← npLast volatility_estimates
  let signal ← combine_signals s price predicted_price confidence volatility
    technical_score risk_assessment.score
  .ok { symbol := symbol, signal := signal.action, confidence := signal.confidence,
        target_price := signal.target_price, stop_loss := signal.stop_loss,
        risk_reward := signal.risk_reward, position_size := signal.position_size,
        analysis := { transformer_confidence := confidence,
                      technical_score := technical_score,
                      risk_score := risk_assessment.score, volatility := volatility } }

theorem ebind_ok {α β : Type} (a : α) (f : α → Except PyErr β) :
    (Except.ok a : Except PyErr α) >>= f = f a := rfl

theorem ebind_error {α β : Type} (e : PyErr) (f : α → Except PyErr β) :
    (Except.error e : Except PyErr α) >>= f = Except.error e := rfl

theorem pydiv_of_ne (a : ℚ) {b : ℚ} (h : b ≠ 0) : pydiv a b = .ok (a / b) := by
  simp [pydiv, h]

theorem pydiv_den_zero (a : ℚ) : pydiv a 0 = .error .zeroDivisionError := by
  simp [pydiv]

theorem npLast_of_ne {xs : List ℚ} (h : xs ≠ []) : npLast xs = .ok (xs.getLast h) := by
  simp [npLast, List.getLast?_eq_getLast xs h]

/-- The scalar self-comparison of `detect_market_regime` is false for every
value: `v > np.mean(v) + np.std(v)` is `v > v + 0`. -/
theorem scalar_self_comparison_false (v : ℚ) :
    decide (v > scalarMean v + scalarStd v) = false := by
  simp [scalarMean, scalarStd]

/-- Closed form of `detect_market_regime` on a non-empty volume series:
the high-volatility branch is unreachable, leaving only the volume test. -/
theorem detect_market_regime_eq (price_data : List ℚ) {volume_data : List ℚ}
    (h : volume_data ≠ []) :
    detect_market_regime price_data volume_data =
      .ok { regime := if volume_data.getLast h > listMean volume_data * (3/2)
                      then "high_volume" else "normal",
            risk_multiplier := if volume_data.getLast h > listMean volume_data * (3/2)
                               then 4/5 else 1,
            volatilitySq := npStdSq price_data,
            volume_ratio := volume_data.getLast h / listMean volume_data } := by
  rw [detect_market_regime, npLast_of_ne h, ebind_ok]
  simp only [scalar_self_comparison_false, Bool.false_and, Bool.false_eq_true,
    if_false]
  by_cases hv : volume_data.getLast h > listMean volume_data * (3/2) <;>
    simp [hv]

/-- `adjust_risk_by_sentiment` raises `KeyError 'news_sentiment'` whenever
the dict lacks that key (as in the dict `generate_signal` builds). -/
theorem adjust_risk_missing_news (base_risk : ℚ) (s : SentimentData)
    (h : s.news_sentiment = none) :
    adjust_risk_by_sentiment base_risk s = .error (.keyError "news_sentiment") := by
  simp [adjust_risk_by_sentiment, h, getKey, ebind_error]

/-- Claim C2: in Scenario A (price 100, predicted 110, confidence 0.9,
volatility 0.05, technical score 0.8, risk score 90, default thresholds)
the combiner returns action `BUY`, stop loss 95, target 110, risk/reward
2.0, and the internal final score 0.87 (returned in the `confidence`
field). -/
theorem combine_signals_scenarioA :
    combine_signals {} 100 110 (9/10) (1/20) (4/5) 90 =
      .ok { action := "BUY", confidence := 87/100, target_price := some 110,
            stop_loss := some 95, risk_reward := 2, position_size := 9/25 } := by
  norm_num [combine_signals, pydiv, scorer_position_size, SignalScorer.riskManager,
    ebind_ok, abs]

/-- Claim C7, counterexample: on a flat 15-price series every delta is `0`
(so none is strictly positive), yet the RSI is `100` — refuting
"RSI=100 exactly when all deltas over the window are ≥0 with at least
one strictly >0". -/
theorem rsi_flat_series_counterexample :
    calculate_rsi (List.replicate 15 (100:ℚ)) = 100 ∧
    npDiff (List.replicate 15 (100:ℚ)) = List.replicate 14 0 := by
  norm_num [calculate_rsi, npDiff, listMean, lastN, List.replicate]

/-- Claim C8, counterexample: on an empty historical sequence the backtest
fails with the untyped `IndexError` raised by `capitals[0]` inside
`_calculate_max_drawdown` — not with a typed `EmptyHistory` failure. -/
theorem backtest_empty_history_counterexample :
    backtest_risk_strategy {} [] none = .error .indexError := by
  norm_num [backtest_risk_strategy, backtestLoop, calculate_max_drawdown,
    pydiv, ebind_ok, ebind_error]

/-- Claim C4, counterexample: with an empty position map the total
exposure is `0`, yet `generate_portfolio_heat_map` returns the three
empty buckets normally instead of failing — refuting "fails with a
typed InvalidPortfolioState error when the total exposure is 0". -/
theorem heat_map_zero_exposure_counterexample :
    generate_portfolio_heat_map [] =
      .ok { high_risk := [], medium_risk := [], low_risk := [] } := by
  simp [generate_portfolio_heat_map, heatMapLoop]

/-- Claim C4, amended: the degenerate conditions surface as untyped
runtime failures (or, for an empty portfolio, as a silent normal
result), never as typed errors: a zero price-risk and a zero volatility
raise `ZeroDivisionError`, an empty position map returns empty buckets,
and a non-empty position map of zero total exposure raises
`ZeroDivisionError`. -/
theorem degenerate_inputs_untyped_failures :
    (∀ (rm : RiskManager) (balance price : ℚ),
      calculate_position_size rm balance price price = .error .zeroDivisionError) ∧
    (∀ (rm : RiskManager) (balance position_value : ℚ),
      calculate_safe_leverage rm balance position_value 0 = .error .zeroDivisionError) ∧
    (generate_portfolio_heat_map [] =
      .ok { high_risk := [], medium_risk := [], low_risk := [] }) ∧
    (∀ (sym : String) (v : ℚ) (rest : List (String × ℚ)),
      (((sym, v) :: rest).map (fun p => p.2)).sum = 0 →
      generate_portfolio_heat_map ((sym, v) :: rest) =
        .error .zeroDivisionError) := by
  refine ⟨?_, ?_, by simp [generate_portfolio_heat_map, heatMapLoop], ?_⟩
  · intro rm balance price
    simp [calculate_position_size, pydiv_den_zero, ebind_error]
  · intro rm balance position_value
    simp [calculate_safe_leverage, pydiv_den_zero, ebind_error]
  · intro sym v rest htot
    simp only [generate_portfolio_heat_map]
    rw [htot]
    simp [heatMapLoop, pydiv_den_zero, ebind_error]

theorem degenerate_inputs_untyped_failures_witness :
    generate_portfolio_heat_map [("a", 1), ("b", -1)] = .error .zeroDivisionError :=
  degenerate_inputs_untyped_failures.2.2.2 "a" 1 [("b", -1)] (by norm_num)

/-- Claim C9, counterexample: `price_change = (predicted - price)/price`
is evaluated before the confidence gate, so with a zero price the
combiner raises `ZeroDivisionError` even though the confidence 0.5 is
below the default threshold 0.7 — refuting "for every input with
confidence below the threshold the result is WAIT". -/
theorem combine_signals_zero_price_counterexample :
    combine_signals {} 0 110 (1/2) (1/20) (4/5) 90 = .error .zeroDivisionError ∧
    (1/2 : ℚ) < (7/10 : ℚ) := by
  refine ⟨?_, by norm_num⟩
  simp [combine_signals, pydiv, ebind_error]

/-- Claim C3: with a non-empty volume series the regime classifier can
only answer `high_volume` (multiplier 0.8) — exactly when the last
volume exceeds 1.5 times the mean volume — or `normal` (multiplier
1.0); the degenerate self-comparison makes `high_risk` and `volatile`
unreachable for every price series. -/
theorem detect_market_regime_no_volatility_regimes (price_data : List ℚ)
    {volume_data : List ℚ} (h : volume_data ≠ []) :
    ∃ r, detect_market_regime price_data volume_data = .ok r ∧
      r.regime ≠ "high_risk" ∧ r.regime ≠ "volatile" ∧
      ((volume_data.getLast h > listMean volume_data * (3/2)) →
        r.regime = "high_volume" ∧ r.risk_multiplier = 4/5) ∧
      (¬(volume_data.getLast h > listMean volume_data * (3/2)) →
        r.regime = "normal" ∧ r.risk_multiplier = 1) := by
  refine ⟨_, detect_market_regime_eq price_data h, ?_, ?_, ?_, ?_⟩ <;>
    by_cases hv : volume_data.getLast h > listMean volume_data * (3/2) <;>
      simp [hv]

theorem detect_market_regime_no_volatility_regimes_witness :
    ∃ r, detect_market_regime [1] [5] = .ok r ∧
      r.regime ≠ "high_risk" ∧ r.regime ≠ "volatile" ∧
      (([5].getLast (by simp) > listMean [5] * (3/2) : Prop) →
        r.regime = "high_volume" ∧ r.risk_multiplier = 4/5) ∧
      (¬([5].getLast (by simp) > listMean [5] * (3/2) : Prop) →
        r.regime = "normal" ∧ r.risk_multiplier = 1) :=
  detect_market_regime_no_volatility_regimes [1] (by simp)

/-- Claim C9, amended: for every input with a *non-zero* price and
confidence strictly below the configured threshold, the combiner
returns `WAIT` with the confidence passed through, no target or stop,
and zero risk/reward and position size (a zero price instead raises
`ZeroDivisionError` in the `price_change` division that precedes the
gate). -/
theorem combine_signals_low_confidence_wait (s : SignalScorer)
    (price predicted_price confidence volatility technical_score risk_score : ℚ)
    (hp : price ≠ 0) (hc : confidence < s.confidence_threshold) :
    combine_signals s price predicted_price confidence volatility
        technical_score risk_score =
      .ok { action := "WAIT", confidence := confidence, target_price := none,
            stop_loss := none, risk_reward := 0, position_size := 0 } := by
  simp only [combine_signals]
  rw [pydiv_of_ne _ hp, ebind_ok, if_pos hc]

theorem combine_signals_low_confidence_wait_witness :
    combine_signals {} 100 110 (1/2) (1/20) (4/5) 90 =
      .ok { action := "WAIT", confidence := 1/2, target_price := none,
            stop_loss := none, risk_reward := 0, position_size := 0 } :=
  combine_signals_low_confidence_wait {} 100 110 (1/2) (1/20) (4/5) 90
    (by norm_num) (by norm_num)

/-- Claim C8, amended: on an empty historical sequence (with a non-zero
initial capital, as defaulted) the backtest fails with the untyped
`IndexError` raised by `capitals[0]` inside `_calculate_max_drawdown`;
no typed `EmptyHistory` failure exists in the code. -/
theorem backtest_empty_history_index_error (rm : RiskManager)
    (initial_capital? : Option ℚ) (h : initial_capital?.getD 10000 ≠ 0) :
    backtest_risk_strategy rm [] initial_capital? = .error .indexError := by
  simp only [backtest_risk_strategy, backtestLoop, ebind_ok]
  rw [pydiv_of_ne _ h, ebind_ok]
  simp [calculate_max_drawdown, ebind_error]

theorem backtest_empty_history_index_error_witness :
    backtest_risk_strategy {} [] (some 500) = .error .indexError :=
  backtest_empty_history_index_error {} (some 500) (by norm_num)

/-- Claim C10: past the confidence gate (with non-zero price and
volatility, and a non-negatively configured minimum risk/reward) the
returned `risk_reward` is always exactly the configured
`min_risk_reward`: the target is placed at `risk · minRiskReward` from
the price, the stop at `risk`, so the ratio is the constant. -/
theorem combine_signals_risk_reward_is_min (s : SignalScorer)
    (price predicted_price confidence volatility technical_score risk_score : ℚ)
    (hm : 0 ≤ s.min_risk_reward) (hp : price ≠ 0) (hv : volatility ≠ 0)
    (hc : s.confidence_threshold ≤ confidence) :
    ∃ out, combine_signals s price predicted_price confidence volatility
        technical_score risk_score = .ok out ∧
      out.risk_reward = s.min_risk_reward := by
  have hpv : price * volatility ≠ 0 := mul_ne_zero hp hv
  have hr0 : (0:ℚ) < |price * volatility| := abs_pos.2 hpv
  simp only [combine_signals, scorer_position_size]
  rw [pydiv_of_ne _ hp, ebind_ok, if_neg (not_lt.2 hc)]
  by_cases hpc : (predicted_price - price) / price > 0
  · simp only [if_pos hpc]
    have e1 : price - price * (1 - volatility) = price * volatility := by ring
    rw [e1]
    have e2 : price + |price * volatility| * s.min_risk_reward - price
        = |price * volatility| * s.min_risk_reward := by ring
    rw [e2]
    have e3 : price * (1 - volatility) - price = -(price * volatility) := by ring
    rw [e3, abs_neg,
      abs_of_nonneg (mul_nonneg (abs_nonneg (price * volatility)) hm),
      pydiv_of_ne _ (ne_of_gt hr0), ebind_ok,
      mul_div_cancel_left₀ _ (ne_of_gt hr0),
      pydiv_of_ne _ (ne_of_gt hr0), ebind_ok]
    exact ⟨_, rfl, rfl⟩
  · simp only [if_neg hpc]
    have e1 : price - price * (1 + volatility) = -(price * volatility) := by ring
    rw [e1, abs_neg]
    have e2 : price - |price * volatility| * s.min_risk_reward - price
        = -(|price * volatility| * s.min_risk_reward) := by ring
    rw [e2, abs_neg,
      abs_of_nonneg (mul_nonneg (abs_nonneg (price * volatility)) hm)]
    have e3 : price * (1 + volatility) - price = price * volatility := by ring
    rw [e3, pydiv_of_ne _ (ne_of_gt hr0), ebind_ok,
      mul_div_cancel_left₀ _ (ne_of_gt hr0),
      pydiv_of_ne _ (ne_of_gt hr0), ebind_ok]
    exact ⟨_, rfl, rfl⟩

theorem combine_signals_risk_reward_is_min_witness :
    ∃ out, combine_signals {} 200 180 (4/5) (1/10) (1/2) 50 = .ok out ∧
      out.risk_reward = ({} : SignalScorer).min_risk_reward :=
  combine_signals_risk_reward_is_min {} 200 180 (4/5) (1/10) (1/2) 50
    (by norm_num) (by norm_num) (by norm_num) (by norm_num)

/-- If the technical score computed without error, the volume series was
non-empty (its last element was read successfully). -/
theorem technical_score_ok_volumes_ne {price_data volume_data : List ℚ} {ts : ℚ}
    (h : calculate_technical_score price_data volume_data = .ok ts) :
    volume_data ≠ [] := by
  intro hvd
  subst hvd
  simp [calculate_technical_score, npLast, ebind_error] at h

/-- With the sentiment dict `generate_signal` builds (no `news_sentiment`
key) and a non-empty volume series, `calculate_risk_score` always fails
with `KeyError 'news_sentiment'`. -/
theorem risk_score_missing_news (rm : RiskManager) (md : MarketData)
    (sd : SentimentData) (pd : PortfolioData) (hs : sd.news_sentiment = none)
    (hvd : md.volumes ≠ []) :
    calculate_risk_score rm md sd pd = .error (.keyError "news_sentiment") := by
  simp only [calculate_risk_score]
  rw [detect_market_regime_eq md.prices hvd, ebind_ok,
    adjust_risk_missing_news 1 sd hs, ebind_error]

/-- Claim C1: `generate_signal` never returns a trade signal — for every
input it fails, and whenever the technical-score step itself succeeds
the failure is precisely the `KeyError 'news_sentiment'` raised inside
`calculate_risk_score` on the caller-supplied
`sentiment_data = {'score': ...}` dict. -/
theorem generate_signal_never_returns (s : SignalScorer) (symbol : String)
    (price_data volume_data predicted_prices confidence_scores volatility_estimates : List ℚ) :
    (∀ sig, generate_signal s symbol price_data volume_data predicted_prices
        confidence_scores volatility_estimates ≠ .ok sig) ∧
    (∀ ts, calculate_technical_score price_data volume_data = .ok ts →
      generate_signal s symbol price_data volume_data predicted_prices
        confidence_scores volatility_estimates = .error (.keyError "news_sentiment")) := by
  have key : ∀ ts, calculate_technical_score price_data volume_data = .ok ts →
      generate_signal s symbol price_data volume_data predicted_prices
        confidence_scores volatility_estimates = .error (.keyError "news_sentiment") := by
    intro ts hts
    have hvd := technical_score_ok_volumes_ne hts
    simp only [generate_signal]
    rw [hts, ebind_ok,
      risk_score_missing_news s.riskManager
        { prices := price_data, volumes := volume_data }
        { news_sentiment := none, social_sentiment := none,
          technical_sentiment := none, score := some ts }
        { positions := some [], returns := none } rfl hvd,
      ebind_error]
  refine ⟨?_, key⟩
  intro sig hok
  cases hcs : calculate_technical_score price_data volume_data with
  | error e =>
    simp only [generate_signal] at hok
    rw [hcs, ebind_error] at hok
    exact Except.noConfusion hok
  | ok ts =>
    rw [key ts hcs] at hok
    exact Except.noConfusion hok

theorem generate_signal_never_returns_witness :
    generate_signal {} "BTC" [1, 2, 3] [1, 2, 3] [1] [1] [1] =
      .error (.keyError "news_sentiment") :=
  (generate_signal_never_returns {} "BTC" [1, 2, 3] [1, 2, 3] [1] [1] [1]).2
    (7/20)
    (by norm_num [calculate_technical_score, calculate_rsi, calculate_trend_score,
      npDiff, listMean, lastN, npLast, ebind_ok])

theorem heatMapLoop_ok {total : ℚ} (htotal : total ≠ 0) :
    ∀ (ps : List (String × ℚ)) (acc : HeatMap),
      ∃ hm, heatMapLoop total ps acc = .ok hm := by
  intro ps
  induction ps with
  | nil => intro acc; exact ⟨acc, rfl⟩
  | cons p rest ih =>
    intro acc
    obtain ⟨sym, v⟩ := p
    simp only [heatMapLoop]
    rw [pydiv_of_ne _ htotal, ebind_ok]
    exact ih _

/-- The heat map computes normally whenever the position map is empty (the
loop body never runs) or the total exposure is non-zero. -/
theorem generate_portfolio_heat_map_ok {ps : List (String × ℚ)}
    (h : ps = [] ∨ (ps.map (fun p => p.2)).sum ≠ 0) :
    ∃ hm, generate_portfolio_heat_map ps = .ok hm := by
  rcases h with h | h
  · subst h
    exact ⟨_, rfl⟩
  · simp only [generate_portfolio_heat_map]
    exact heatMapLoop_ok h ps _

/-- Closed form of `adjust_risk_by_sentiment` when the three sentiment
keys are present. -/
theorem adjust_risk_eq (base_risk : ℚ) {s : SentimentData} {n so te : ℚ}
    (hn : s.news_sentiment = some n) (hso : s.social_sentiment = some so)
    (hte : s.technical_sentiment = some te) :
    adjust_risk_by_sentiment base_risk s = .ok
      { original_risk := base_risk,
        adjusted_risk := base_risk *
          (if n * (3/10) + so * (3/10) + te * (2/5) > 4/5 then 6/5
           else if n * (3/10) + so * (3/10) + te * (2/5) < 1/5 then 3/5 else 1),
        sentiment_score := n * (3/10) + so * (3/10) + te * (2/5),
        risk_multiplier :=
          if n * (3/10) + so * (3/10) + te * (2/5) > 4/5 then 6/5
          else if n * (3/10) + so * (3/10) + te * (2/5) < 1/5 then 3/5 else 1 } := by
  simp only [adjust_risk_by_sentiment, hn, hso, hte, getKey, ebind_ok]

theorem weighted_sum_bounds {M S C K : ℚ}
    (hM0 : 0 ≤ M) (hM1 : M ≤ 100) (hS0 : 0 ≤ S) (hS1 : S ≤ 100)
    (hC0 : 0 ≤ C) (hC1 : C ≤ 100) (hK0 : 0 ≤ K) (hK1 : K ≤ 100) :
    0 ≤ M * (3/10) + S * (1/5) + C * (1/4) + K * (1/4) ∧
      M * (3/10) + S * (1/5) + C * (1/4) + K * (1/4) ≤ 100 :=
  ⟨by linarith, by linarith⟩

/-- Every pair the `for i / for j in range(i+1, n)` loop visits has both
components in the underlying list. -/
theorem allPairs_mem {α : Type} :
    ∀ {xs : List α} {p : α × α}, p ∈ allPairs xs → p.1 ∈ xs ∧ p.2 ∈ xs := by
  intro xs
  induction xs with
  | nil => intro p h; simp [allPairs] at h
  | cons x t ih =>
    intro p h
    simp only [allPairs, List.mem_append, List.mem_map] at h
    rcases h with ⟨y, hy, rfl⟩ | h
    · exact ⟨List.mem_cons_self x t, List.mem_cons_of_mem x hy⟩
    · rcases ih h with ⟨h1, h2⟩
      exact ⟨List.mem_cons_of_mem x h1, List.mem_cons_of_mem x h2⟩

/-- The correlation loop completes when every visited pair has
length-matched return series (no `np.corrcoef` shape error). -/
theorem corrLoop_ok (c : ℚ) :
    ∀ (pairs : List ((String × List ℚ) × (String × List ℚ))),
      (∀ pr ∈ pairs, pr.1.2.length = pr.2.2.length) →
      ∃ l, corrLoop c pairs = .ok l := by
  intro pairs
  induction pairs with
  | nil => intro _; exact ⟨[], rfl⟩
  | cons pr rest ih =>
    intro h
    obtain ⟨l, hl⟩ := ih (fun q hq => h q (List.mem_cons_of_mem pr hq))
    have hpr := h pr (List.mem_cons_self pr rest)
    simp only [corrLoop, if_pos hpr, hl, ebind_ok]
    by_cases hf : isHighCorrelation c pr.1.2 pr.2.2 = true
    · exact ⟨_, by rw [if_pos hf]⟩
    · exact ⟨_, by rw [if_neg hf]⟩

/-- `calculate_correlation_risk` completes on index-aligned portfolios
(all return series of equal length, as the data model requires). -/
theorem calculate_correlation_risk_ok (rm : RiskManager)
    {rets : List (String × List ℚ)}
    (hlen : ∀ p ∈ rets, ∀ q ∈ rets, p.2.length = q.2.length) :
    ∃ cd, calculate_correlation_risk rm rets = .ok cd := by
  have hp : ∀ pr ∈ allPairs rets, pr.1.2.length = pr.2.2.length := by
    intro pr hpr
    obtain ⟨h1, h2⟩ := allPairs_mem hpr
    exact hlen _ h1 _ h2
  obtain ⟨l, hl⟩ := corrLoop_ok rm.max_correlation (allPairs rets) hp
  refine ⟨{ high_correlation_pairs := l, max_correlation := rm.max_correlation }, ?_⟩
  simp only [calculate_correlation_risk, hl, ebind_ok]

set_option maxHeartbeats 1000000 in
/-- Claim C5: with the three sentiment scores in `[0,1]` (and inputs on
which the computation completes: a non-empty volume series, both
portfolio keys present, a portfolio that is empty or has non-zero
total exposure, and index-aligned return series of equal length, which
the data model requires — a length mismatch makes `np.corrcoef` raise),
the risk score lies in `[0,100]` and the level is the stated pure
threshold function of the score. -/
theorem calculate_risk_score_in_range (rm : RiskManager) (md : MarketData)
    (n so te : ℚ) (score? : Option ℚ) (ps : List (String × ℚ))
    (rets : List (String × List ℚ))
    (hn0 : 0 ≤ n) (hn1 : n ≤ 1) (hso0 : 0 ≤ so) (hso1 : so ≤ 1)
    (hte0 : 0 ≤ te) (hte1 : te ≤ 1)
    (hvd : md.volumes ≠ [])
    (hexp : ps = [] ∨ (ps.map (fun p => p.2)).sum ≠ 0)
    (hlen : ∀ p ∈ rets, ∀ q ∈ rets, p.2.length = q.2.length) :
    ∃ r, calculate_risk_score rm md
        { news_sentiment := some n, social_sentiment := some so,
          technical_sentiment := some te, score := score? }
        { positions := some ps, returns := some rets } = .ok r ∧
      0 ≤ r.score ∧ r.score ≤ 100 ∧
      r.level = (if r.score < 40 then "high"
                 else if r.score < 70 then "medium" else "low") := by
  rcases generate_portfolio_heat_map_ok hexp with ⟨hm, hhm⟩
  rcases calculate_correlation_risk_ok rm hlen with ⟨cd, hcd⟩
  simp only [calculate_risk_score, getKey]
  rw [detect_market_regime_eq md.prices hvd]
  simp only [ebind_ok]
  rw [adjust_risk_eq 1 rfl rfl rfl]
  simp only [ebind_ok]
  rw [hhm]
  simp only [ebind_ok]
  rw [hcd]
  simp only [ebind_ok]
  refine ⟨_, rfl, ?_, ?_, rfl⟩ <;>
  · split_ifs <;>
      linarith [hn0, hn1, hso0, hso1, hte0, hte1,
        le_max_left (0:ℚ) (100 - (hm.high_risk.length : ℚ) * 20),
        max_le (show (0:ℚ) ≤ 100 by norm_num)
          (sub_le_self (100:ℚ)
            (by positivity : (0:ℚ) ≤ (hm.high_risk.length : ℚ) * 20)),
        le_max_left (0:ℚ) (100 - (cd.high_correlation_pairs.length : ℚ) * 15),
        max_le (show (0:ℚ) ≤ 100 by norm_num)
          (sub_le_self (100:ℚ)
            (by positivity :
              (0:ℚ) ≤ (cd.high_correlation_pairs.length : ℚ) * 15))]

theorem calculate_risk_score_in_range_witness :
    ∃ r, calculate_risk_score {} ⟨[1, 2], [1]⟩
        { news_sentiment := some (1/2), social_sentiment := some (1/2),
          technical_sentiment := some (1/2), score := none }
        { positions := some [], returns := some [] } = .ok r ∧
      0 ≤ r.score ∧ r.score ≤ 100 ∧
      r.level = (if r.score < 40 then "high"
                 else if r.score < 70 then "medium" else "low") :=
  calculate_risk_score_in_range {} ⟨[1, 2], [1]⟩ (1/2) (1/2) (1/2) none [] []
    (by norm_num) (by norm_num) (by norm_num) (by norm_num) (by norm_num)
    (by norm_num) (by simp) (Or.inl rfl) (by simp)

/-- Closed form of `calculate_position_size` when entry and stop differ. -/
theorem calculate_position_size_of_ne (rm : RiskManager) (bal : ℚ) {e sl : ℚ}
    (h : e ≠ sl) :
    calculate_position_size rm bal e sl = .ok
      { position_size := bal * rm.risk_per_trade / |e - sl|,
        position_value := bal * rm.risk_per_trade / |e - sl| * e,
        risk_amount := bal * rm.risk_per_trade,
        risk_percent := rm.risk_per_trade * 100 } := by
  simp only [calculate_position_size]
  rw [pydiv_of_ne _ (abs_ne_zero.2 (sub_ne_zero.2 h)), ebind_ok]

/-- One period of the backtest loop under a zero risk score: the adjusted
size, pnl and capital change are all zero, so the record is appended
with the capital unchanged. -/
theorem backtestLoop_zero_step (rm : RiskManager) (date : String) (p : PeriodData)
    (r : RiskScore) (rest : List (String × PeriodData)) (capital : ℚ)
    (trades : List TradeRecord)
    (h : calculate_risk_score rm p.market p.sentiment p.portfolio = .ok r)
    (hs : r.score = 0) (hp : p.price ≠ 0) :
    backtestLoop rm ((date, p) :: rest) capital trades =
      backtestLoop rm rest capital
        (trades ++ [{ date := date, risk_score := r, position_size := 0,
                      pnl := 0, capital := capital }]) := by
  have hne : p.price ≠ p.price * (19/20) := fun h' => hp (by linarith)
  simp only [backtestLoop, h, ebind_ok, calculate_position_size_of_ne rm capital hne, hs]
  norm_num

/-- Claim C6: in a 2-period backtest with initial capital 10000 where the
computed risk score is 0 in both periods (and both period prices are
non-zero so the nominal sizing step divides safely), the adjusted
position size is 0 each period, the capital stays flat at 10000 in both
trade records, and the metrics are maxDrawdown 0, sharpeRatio 0 and
riskAdjustedReturn 0. -/
theorem backtest_zero_risk_score_flat (rm : RiskManager) (d1 d2 : String)
    (p1 p2 : PeriodData) (r1 r2 : RiskScore)
    (h1 : calculate_risk_score rm p1.market p1.sentiment p1.portfolio = .ok r1)
    (h1s : r1.score = 0)
    (h2 : calculate_risk_score rm p2.market p2.sentiment p2.portfolio = .ok r2)
    (h2s : r2.score = 0)
    (hp1 : p1.price ≠ 0) (hp2 : p2.price ≠ 0) :
    backtest_risk_strategy rm [(d1, p1), (d2, p2)] (some 10000) = .ok
      { trades := [{ date := d1, risk_score := r1, position_size := 0,
                     pnl := 0, capital := 10000 },
                   { date := d2, risk_score := r2, position_size := 0,
                     pnl := 0, capital := 10000 }],
        metrics := { final_capital := 10000, total_return := 0, max_drawdown := 0,
                     sharpe_ratio := .zero, risk_adjusted_return := 0 } } := by
  simp only [backtest_risk_strategy, Option.getD]
  rw [backtestLoop_zero_step rm d1 p1 r1 _ 10000 [] h1 h1s hp1,
    backtestLoop_zero_step rm d2 p2 r2 [] 10000 _ h2 h2s hp2]
  have hnil : ∀ (c : ℚ) (t : List TradeRecord), backtestLoop rm [] c t = .ok (c, t) :=
    fun _ _ => rfl
  rw [List.nil_append, List.singleton_append, hnil, ebind_ok]
  rw [pydiv_of_ne _ (by norm_num : (10000:ℚ) ≠ 0), ebind_ok]
  have hdd : calculate_max_drawdown
      [{ date := d1, risk_score := r1, position_size := 0, pnl := 0, capital := 10000 },
       { date := d2, risk_score := r2, position_size := 0, pnl := 0, capital := 10000 }] = .ok 0 := by
    norm_num [calculate_max_drawdown, drawdownLoop, List.map, pydiv, ebind_ok]
  rw [hdd, ebind_ok]
  have hsh : calculate_sharpe_ratio
      [{ date := d1, risk_score := r1, position_size := 0, pnl := 0, capital := 10000 },
       { date := d2, risk_score := r2, position_size := 0, pnl := 0, capital := 10000 }] = .ok .zero := by
    norm_num [calculate_sharpe_ratio, consecutiveReturns, List.map, pydiv, ebind_ok,
      listMean, npStdSq]
  rw [hsh, ebind_ok]
  have hrar : calculate_risk_adjusted_return
      [{ date := d1, risk_score := r1, position_size := 0, pnl := 0, capital := 10000 },
       { date := d2, risk_score := r2, position_size := 0, pnl := 0, capital := 10000 }] = .ok 0 := by
    norm_num [calculate_risk_adjusted_return, calculate_max_drawdown, drawdownLoop,
      List.map, pydiv, ebind_ok, List.getLast]
  rw [hrar, ebind_ok]
  norm_num


/-- A concrete period whose computed risk score is exactly 0: regime
`normal` (24 weighted), sentiment scores -3.7 each (weighted -74),
empty portfolio (25 + 25). -/
def zeroScorePeriod : PeriodData :=
  { market := { prices := [1], volumes := [1] },
    sentiment := { news_sentiment := some (-37/10), social_sentiment := some (-37/10),
                   technical_sentiment := some (-37/10), score := none },
    portfolio := { positions := some [], returns := some [] },
    price := 100, next_price := 105 }

/-- The risk-score record `calculate_risk_score` yields on
`zeroScorePeriod`. -/
def zeroScoreResult : RiskScore :=
  { score := 0, level := "high", market_regime_component := 80,
    sentiment_component := -370, concentration_component := 100,
    correlation_component := 100 }

theorem zeroScorePeriod_risk_score :
    calculate_risk_score {} zeroScorePeriod.market zeroScorePeriod.sentiment
      zeroScorePeriod.portfolio = .ok zeroScoreResult := by
  norm_num [calculate_risk_score, zeroScorePeriod, zeroScoreResult, detect_market_regime,
    npStdSq, listMean, npLast, List.getLast?, List.getLast, scalarMean, scalarStd,
    adjust_risk_by_sentiment, getKey, generate_portfolio_heat_map, heatMapLoop,
    calculate_correlation_risk, corrLoop, allPairs, ebind_ok, pydiv, List.map,
    (by decide : ¬ ("normal" = "high_risk")), (by decide : ¬ ("normal" = "volatile")),
    (by decide : ¬ ("normal" = "high_volume"))]

theorem backtest_zero_risk_score_flat_witness :
    backtest_risk_strategy {} [("d1", zeroScorePeriod), ("d2", zeroScorePeriod)]
        (some 10000) =
      .ok { trades := [{ date := "d1", risk_score := zeroScoreResult,
                         position_size := 0, pnl := 0, capital := 10000 },
                       { date := "d2", risk_score := zeroScoreResult,
                         position_size := 0, pnl := 0, capital := 10000 }],
            metrics := { final_capital := 10000, total_return := 0, max_drawdown := 0,
                         sharpe_ratio := .zero, risk_adjusted_return := 0 } } :=
  backtest_zero_risk_score_flat {} "d1" "d2" zeroScorePeriod zeroScorePeriod
    zeroScoreResult zeroScoreResult zeroScorePeriod_risk_score rfl
    zeroScorePeriod_risk_score rfl (by norm_num [zeroScorePeriod])
    (by norm_num [zeroScorePeriod])

theorem npDiff_length : ∀ xs : List ℚ, (npDiff xs).length = xs.length - 1 := by
  intro xs
  induction xs with
  | nil => rfl
  | cons x t ih =>
    cases t with
    | nil => rfl
    | cons y rest =>
      simp only [npDiff, List.length_cons] at ih ⊢
      omega

theorem lastN_map (f : ℚ → ℚ) (n : Nat) (xs : List ℚ) :
    lastN n (xs.map f) = (lastN n xs).map f := by
  simp [lastN, List.map_drop, List.length_map]

theorem listSum_nonneg_zero_iff :
    ∀ {xs : List ℚ}, (∀ x ∈ xs, 0 ≤ x) → (xs.sum = 0 ↔ ∀ x ∈ xs, x = 0) := by
  intro xs
  induction xs with
  | nil => simp
  | cons a l ih =>
    intro h
    have ha : 0 ≤ a := h a (List.mem_cons_self a l)
    have hl : ∀ x ∈ l, 0 ≤ x := fun x hx => h x (List.mem_cons_of_mem a hx)
    have hls : 0 ≤ l.sum := List.sum_nonneg hl
    simp only [List.sum_cons, List.mem_cons]
    constructor
    · intro hsum
      have ha0 : a = 0 := by linarith
      have hl0 : l.sum = 0 := by linarith
      intro x hx
      rcases hx with rfl | hx
      · exact ha0
      · exact ((ih hl).1 hl0) x hx
    · intro hall
      have ha0 : a = 0 := hall a (Or.inl rfl)
      have hl0 : l.sum = 0 := (ih hl).2 (fun x hx => hall x (Or.inr hx))
      rw [ha0, hl0, add_zero]

theorem listMean_nonneg {xs : List ℚ} (h : ∀ x ∈ xs, 0 ≤ x) : 0 ≤ listMean xs :=
  div_nonneg (List.sum_nonneg h) (Nat.cast_nonneg _)

theorem listMean_zero_iff {xs : List ℚ} (hne : xs ≠ []) (h : ∀ x ∈ xs, 0 ≤ x) :
    listMean xs = 0 ↔ ∀ x ∈ xs, x = 0 := by
  unfold listMean
  rw [div_eq_zero_iff]
  have hlen : (xs.length : ℚ) ≠ 0 := by
    simpa [List.length_eq_zero] using hne
  constructor
  · rintro (hs | hl)
    · exact (listSum_nonneg_zero_iff h).1 hs
    · exact absurd hl hlen
  · intro hall
    exact Or.inl ((listSum_nonneg_zero_iff h).2 hall)

/-- Claim C7, amended: for every price series long enough for the
14-period window, the RSI lies in `[0,100]`, and it equals 100 exactly
when every delta over the window is ≥ 0 — including the all-zero case,
which the original claim excluded. -/
theorem rsi_range_and_top (prices : List ℚ) (h : 15 ≤ prices.length) :
    (0 ≤ calculate_rsi prices ∧ calculate_rsi prices ≤ 100) ∧
    (calculate_rsi prices = 100 ↔ ∀ d ∈ lastN 14 (npDiff prices), 0 ≤ d) := by
  have hdl : 14 ≤ (npDiff prices).length := by rw [npDiff_length]; omega
  set W := lastN 14 (npDiff prices) with hWdef
  have hWlen : W.length = 14 := by
    simp only [hWdef, lastN, List.length_drop]
    omega
  have hWne : W ≠ [] := by
    intro hW
    rw [hW] at hWlen
    simp at hWlen
  have hgain : lastN 14 ((npDiff prices).map (fun d => if d > 0 then d else 0))
      = W.map (fun d => if d > 0 then d else 0) := lastN_map _ _ _
  have hloss : lastN 14 ((npDiff prices).map (fun d => if d < 0 then -d else 0))
      = W.map (fun d => if d < 0 then -d else 0) := lastN_map _ _ _
  have hlossnn : ∀ x ∈ W.map (fun d => if d < 0 then -d else 0), 0 ≤ x := by
    intro x hx
    rcases List.mem_map.1 hx with ⟨d, _, rfl⟩
    split_ifs with hd
    · linarith
    · exact le_refl 0
  have hgainnn : ∀ x ∈ W.map (fun d => if d > 0 then d else 0), 0 ≤ x := by
    intro x hx
    rcases List.mem_map.1 hx with ⟨d, _, rfl⟩
    split_ifs with hd
    · linarith
    · exact le_refl 0
  have hmapne : W.map (fun d => if d < 0 then -d else 0) ≠ [] := by
    simpa [List.map_eq_nil_iff] using hWne
  have hALnn : 0 ≤ listMean (W.map (fun d => if d < 0 then -d else 0)) :=
    listMean_nonneg hlossnn
  have hALiff : listMean (W.map (fun d => if d < 0 then -d else 0)) = 0 ↔
      ∀ d ∈ W, 0 ≤ d := by
    rw [listMean_zero_iff hmapne hlossnn]
    constructor
    · intro hz d hd
      have h0 := hz _ (List.mem_map_of_mem _ hd)
      by_contra hneg
      push_neg at hneg
      rw [if_pos hneg] at h0
      linarith
    · intro hz x hx
      rcases List.mem_map.1 hx with ⟨d, hd, rfl⟩
      rw [if_neg (not_lt.2 (hz d hd))]
  simp only [calculate_rsi, hgain, hloss]
  by_cases hz : listMean (W.map (fun d => if d < 0 then -d else 0)) = 0
  · rw [if_pos hz]
    exact ⟨⟨by norm_num, by norm_num⟩, iff_of_true rfl (hALiff.1 hz)⟩
  · rw [if_neg hz]
    have hALpos : 0 < listMean (W.map (fun d => if d < 0 then -d else 0)) :=
      lt_of_le_of_ne hALnn (Ne.symm hz)
    have hAGnn : 0 ≤ listMean (W.map (fun d => if d > 0 then d else 0)) :=
      listMean_nonneg hgainnn
    have hrs : 0 ≤ listMean (W.map (fun d => if d > 0 then d else 0)) /
        listMean (W.map (fun d => if d < 0 then -d else 0)) :=
      div_nonneg hAGnn (le_of_lt hALpos)
    have h1 : (0:ℚ) < 1 + listMean (W.map (fun d => if d > 0 then d else 0)) /
        listMean (W.map (fun d => if d < 0 then -d else 0)) := by linarith
    have hfrac_pos : 0 < 100 / (1 + listMean (W.map (fun d => if d > 0 then d else 0)) /
        listMean (W.map (fun d => if d < 0 then -d else 0))) := by positivity
    have hfrac_le : 100 / (1 + listMean (W.map (fun d => if d > 0 then d else 0)) /
        listMean (W.map (fun d => if d < 0 then -d else 0))) ≤ 100 :=
      div_le_self (by norm_num) (by linarith)
    refine ⟨⟨by linarith, by linarith⟩, iff_of_false ?_ ?_⟩
    · intro heq
      have : 100 / (1 + listMean (W.map (fun d => if d > 0 then d else 0)) /
          listMean (W.map (fun d => if d < 0 then -d else 0))) = 0 := by linarith
      linarith
    · intro hall
      exact hz (hALiff.2 hall)

theorem rsi_range_and_top_witness :
    (0 ≤ calculate_rsi (List.replicate 15 (100:ℚ)) ∧
      calculate_rsi (List.replicate 15 (100:ℚ)) ≤ 100) ∧
    (calculate_rsi (List.replicate 15 (100:ℚ)) = 100 ↔
      ∀ d ∈ lastN 14 (npDiff (List.replicate 15 (100:ℚ))), 0 ≤ d) :=
  rsi_range_and_top (List.replicate 15 (100:ℚ)) (by simp)
